import Mathlib

/-!
Shallow embedding of `src/hw1.py` (fleet backup / health-check script).

Python exceptions are modelled with `Except PyErr`; the mocked remote
session (netmiko `ConnectHandler`) is a `DeviceBehavior` record giving the
outcome of each remote call; the filesystem and the disconnect counter are
threaded explicitly through a `World` state, surviving exception paths the
way real side effects do.
-/

/-- Python exception classes that can propagate in this program. -/
inductive PyErr where
  | connectionError   -- netmiko ConnectHandler failure
  | privilegeError    -- connection.enable() failure
  | commandError      -- send_command / send_config_set failure (incl. timeout)
  | ioError           -- open/write failure
  | nameError         -- evaluating the undefined name `Error` (hw1.py line 125)
  | attributeError    -- str has no attribute .get
  | indexError        -- indexing an empty list
  deriving DecidableEq, Repr

/-- Output of `send_command(..., use_textfsm=True)`: either a structured
record list (textfsm matched), raw text (no template matched), or None. -/
inductive CmdOutput (α : Type) where
  | noneV
  | raw (s : String)
  | structured (recs : List α)
  deriving DecidableEq, Repr

/-- Python truthiness of a `CmdOutput` (`if not output:`). -/
def CmdOutput.falsy : CmdOutput α → Bool
  | .noneV => true
  | .raw s => s.isEmpty
  | .structured l => l.isEmpty

/-- A parsed `sh ver` textfsm record: each key may be absent (dict `.get`). -/
structure VRecord where
  hostname : Option String
  hardware : Option (List String)
  version : Option String
  running_image : Option String
  deriving DecidableEq, Repr

/-- Charwise uppercase, the model of Python `str.upper()`. -/
def upChar (c : Char) : Char := c.toUpper

/-- Model of Python `str.upper()` on the character list of a string. -/
def upStr (s : String) : String := ⟨s.data.map upChar⟩

/-- Does `l` start with `p`? (helper for substring containment). -/
def startsWithL : List Char → List Char → Bool
  | [], _ => true
  | _ :: _, [] => false
  | p :: ps, c :: cs => p == c && startsWithL ps cs

/-- Model of Python `pat in s` over character lists: `pat` occurs
contiguously in `l`. -/
def hasSub (pat : List Char) : List Char → Bool
  | [] => startsWithL pat []
  | c :: cs => startsWithL pat (c :: cs) || hasSub pat cs

/-- Model of Python `pat in s` on strings. -/
def strContains (s pat : String) : Bool := hasSub pat.data s.data

/-- Lines 136-139: the pure classification part of
`check_cdp_neighbours_count` applied to the `sh cdp neighbors detail`
output (`type(output) == list` test). -/
def cdp_summary (o : CmdOutput α) : String :=
  match o with
  | .structured recs => "CDP is ON, " ++ toString recs.length ++ " peers"
  | .raw _ => "CDP is OFF, 0 peers"
  | .noneV => "CDP is OFF, 0 peers"

/-- Line 153: `"NPE" if "NPE" in output[0].get("running_image", "").upper() else "PE"`. -/
def npe_classification (running_image : String) : String :=
  if strContains (upStr running_image) "NPE" then "NPE" else "PE"

/-- Lines 147-153: the pure part of `check_version` applied to the
`sh ver` output.  `if not output` returns four empties; otherwise
`output[0].get(...)` is evaluated: on a (necessarily non-empty) raw string
`output[0]` is a one-character string and `.get` raises AttributeError; on
a record, `.get("hardware", [""])[0]` raises IndexError when the key is
present but holds an empty list. -/
def check_version_extract (o : CmdOutput VRecord) :
    Except PyErr (String × String × String × String) :=
  if o.falsy then .ok ("", "", "", "") else
  match o with
  | .noneV => .error .attributeError          -- unreachable: None is falsy
  | .raw _ => .error .attributeError          -- str.get does not exist
  | .structured [] => .error .indexError      -- unreachable: [] is falsy
  | .structured (r :: _) =>
    match (r.hardware.getD [""]).head? with
    | Option.none => .error .indexError
    | Option.some hw =>
      .ok (r.hostname.getD "", hw, upStr (r.version.getD ""),
           npe_classification (r.running_image.getD ""))

/-- Line 183: the pure part of `check_ntp`:
`"Clock in Sync" if f"*~{ntp_server}" in output else "Not Sync"`. -/
def ntp_sync_summary (ntp_server output : String) : String :=
  if hasSub (['*', '~'] ++ ntp_server.data) output.data
  then "Clock in Sync" else "Not Sync"

/-- Lines 168-173: the pure part of `ping_ntp`: unreachable iff the output
contains five consecutive dots. -/
def ping_reachable (output : String) : Bool :=
  !(strContains output ".....")

/-- Line 15: the configured NTP server address. -/
def NTP_SERVER : String := "10.10.0.1"

/-- Line 14: the backup root directory. -/
def BACKUP_DIR_PATH : String := "backups"

/-- POSIX model of `os.path.join` for two components. -/
def pathJoin (a b : String) : String := a ++ "/" ++ b

/-- The mutable outside world: files on disk, directories on disk, and a
counter of `connection.disconnect()` calls, threaded through the pipeline
so that it survives exception propagation. -/
structure World where
  files : String → Option String
  dirs : String → Bool
  disconnects : Nat

/-- The world with an empty filesystem and no disconnect calls. -/
def World.empty : World := ⟨fun _ => Option.none, fun _ => false, 0⟩

/-- Model of `os.makedirs`. -/
def World.mkdirs (w : World) (p : String) : World :=
  ⟨w.files, fun q => if q = p then true else w.dirs q, w.disconnects⟩

/-- Model of `open(p, "w"); write(c)`. -/
def World.writeFile (w : World) (p c : String) : World :=
  ⟨fun q => if q = p then Option.some c else w.files q, w.dirs, w.disconnects⟩

/-- Model of `connection.disconnect()`'s observable effect. -/
def World.bump (w : World) : World :=
  ⟨w.files, w.dirs, w.disconnects + 1⟩

/-- Lines 88-103: `get_backup_file_path` — creates the per-hostname
directory when absent and returns
`os.path.join(BACKUP_DIR_PATH, hostname, hostname + "-" + timestamp + ".txt")`. -/
def get_backup_file_path (hostname timestamp : String) (w : World) :
    String × World :=
  let dir := pathJoin BACKUP_DIR_PATH hostname
  let w' := if w.dirs dir then w else w.mkdirs dir
  (pathJoin dir (hostname ++ "-" ++ timestamp ++ ".txt"), w')

/-- One inventory row (`devices.csv`): ip, username, password, device_type,
secret, hostname. -/
structure Device where
  ip : String
  username : String
  password : String
  device_type : String
  secret : String
  hostname : String
  deriving DecidableEq, Repr

/-- The mocked remote session: the outcome each netmiko call would have on
this device during this run. -/
structure DeviceBehavior where
  connectOk : Bool                                  -- ConnectHandler(...)
  enableOk : Bool                                   -- connection.enable()
  shRunOut : Except PyErr String                    -- send_command("sh run")
  writeOk : Bool                                    -- open/write of the backup
  cdpOut : Except PyErr (CmdOutput Unit)            -- sh cdp neighbors detail
  verOut : Except PyErr (CmdOutput VRecord)         -- sh ver
  tzOk : Bool                                       -- send_config_set(timezone)
  pingOut : Except PyErr String                     -- ping NTP_SERVER
  ntpCfgOk : Bool                                   -- send_config_set(ntp server)
  ntpAssoOut : Except PyErr String                  -- sh ntp asso

/-- Lines 61-78: `connect_to_device` — `ConnectHandler(...)`; a failure
raises and is not caught here. -/
def connect_to_device (b : DeviceBehavior) : Except PyErr Unit :=
  if b.connectOk then .ok () else .error .connectionError

/-- Lines 81-85: `disconnect_from_device` — `connection.disconnect()`. -/
def disconnect_from_device (w : World) : World := w.bump

/-- Lines 110-124: the body of `create_backup`'s `try:` block —
`connection.enable()`, `send_command("sh run")`, write the output to the
backup file, return True. -/
def create_backup_try (b : DeviceBehavior) (backup_file_path : String)
    (w : World) : Except PyErr Bool × World :=
  if !b.enableOk then (.error .privilegeError, w) else
  match b.shRunOut with
  | .error e => (.error e, w)
  | .ok output =>
    if b.writeOk then (.ok true, w.writeFile backup_file_path output)
    else (.error .ioError, w)

/-- Lines 106-128: `create_backup`.  Its handler is `except Error:` where
`Error` is an undefined name, so when the `try:` body raises, evaluating
the handler clause raises NameError instead of returning False. -/
def create_backup (b : DeviceBehavior) (backup_file_path : String)
    (w : World) : Except PyErr Bool × World :=
  match create_backup_try b backup_file_path w with
  | (.ok r, w') => (.ok r, w')
  | (.error _, w') => (.error .nameError, w')

/-- Lines 131-139: `check_cdp_neighbours_count` — run the command (may
raise), then classify by `type(output) == list`. -/
def check_cdp_neighbours_count (b : DeviceBehavior) : Except PyErr String :=
  match b.cdpOut with
  | .error e => .error e
  | .ok output => .ok (cdp_summary output)

/-- Lines 142-153: `check_version` — run `sh ver` (may raise), then apply
the extraction logic (which itself may raise, see
`check_version_extract`). -/
def check_version (b : DeviceBehavior) :
    Except PyErr (String × String × String × String) :=
  match b.verOut with
  | .error e => .error e
  | .ok output => check_version_extract output

/-- Lines 156-160: `set_timezone` — `send_config_set(["clock timezone GMT+0 0"])`. -/
def set_timezone (b : DeviceBehavior) : Except PyErr Unit :=
  if b.tzOk then .ok () else .error .commandError

/-- Lines 163-173: `ping_ntp` — ping the NTP server, report reachable
unless the output contains five consecutive dots. -/
def ping_ntp (b : DeviceBehavior) : Except PyErr Bool :=
  match b.pingOut with
  | .error e => .error e
  | .ok output => .ok (ping_reachable output)

/-- Lines 176-183: `check_ntp` — push `ntp server {NTP_SERVER}`, sleep,
query `sh ntp asso`, classify. -/
def check_ntp (b : DeviceBehavior) (ntp_server : String) :
    Except PyErr String :=
  if !b.ntpCfgOk then .error .commandError else
  match b.ntpAssoOut with
  | .error e => .error e
  | .ok output => .ok (ntp_sync_summary ntp_server output)

/-- Lines 186-215: `process_target` — the per-device pipeline.  There is
no try/except and no try/finally: any exception raised by a step
propagates out immediately, skipping every later step including
`disconnect_from_device`.  The return value (on the no-exception path) is
the pipe-delimited report line; note it contains no backup flag — the
value of `create_backup` is discarded. -/
def process_target (d : Device) (b : DeviceBehavior) (timestamp : String)
    (w : World) : Except PyErr String × World :=
  match connect_to_device b with
  | .error e => (.error e, w)
  | .ok () =>
    match get_backup_file_path d.hostname timestamp w with
    | (backup_file_path, w1) =>
      match create_backup b backup_file_path w1 with
      | (.error e, w2) => (.error e, w2)
      | (.ok _unused, w2) =>
        match check_cdp_neighbours_count b with
        | .error e => (.error e, w2)
        | .ok cdp_result =>
          match check_version b with
          | .error e => (.error e, w2)
          | .ok (hostname, device_type, image, is_NPE) =>
            match set_timezone b with
            | .error e => (.error e, w2)
            | .ok () =>
              match ping_ntp b with
              | .error e => (.error e, w2)
              | .ok _avail =>
                match check_ntp b NTP_SERVER with
                | .error e => (.error e, w2)
                | .ok ntp_result =>
                  (.ok (hostname ++ "|" ++ device_type ++ "|" ++ image ++
                        "|" ++ is_NPE ++ "|" ++ cdp_result ++ "|" ++
                        ntp_result),
                   disconnect_from_device w2)

/-- Lines 233-235 of `main`: the sequential fleet loop
`for device in device_list: result.append(process_target(device, timestamp))`.
An exception raised by any `process_target` call propagates out of `main`:
the partially built `result` list is lost and later devices never run. -/
def fleet_loop (timestamp : String) :
    List (Device × DeviceBehavior) → World → Except PyErr (List String) × World
  | [], w => (.ok [], w)
  | (d, b) :: rest, w =>
    match process_target d b timestamp w with
    | (.error e, w') => (.error e, w')
    | (.ok r, w') =>
      match fleet_loop timestamp rest w' with
      | (.error e, w'') => (.error e, w'')
      | (.ok rs, w'') => (.ok (r :: rs), w'')

/-- Lines 217-237: the source's `main` — compute one shared timestamp,
read the inventory, then run the sequential fleet loop and aggregate the
report lines in input order.  (Named `main_run` here because `main` is
reserved in Lean.) -/
def main_run (device_list : List (Device × DeviceBehavior))
    (timestamp : String) (w : World) : Except PyErr (List String) × World :=
  fleet_loop timestamp device_list w

/-- A fixed run timestamp for the concrete runs below. -/
def demoTs : String := "2024_01_01-00_00_00"

/-- A concrete inventory row. -/
def demoDevice : Device :=
  ⟨"192.168.1.1", "admin", "pw", "cisco_ios", "enable_pw", "R1"⟩

/-- A second concrete inventory row. -/
def demoDevice2 : Device :=
  ⟨"192.168.1.2", "admin", "pw", "cisco_ios", "enable_pw", "R2"⟩

/-- A device on which every remote call succeeds (NPE image, two CDP
peers, synced clock). -/
def goodB : DeviceBehavior :=
  ⟨true, true, .ok "hostname R1", true,
   .ok (.structured [(), ()]),
   .ok (.structured [⟨Option.some "R1", Option.some ["ISR4321"],
                      Option.some "15.1", Option.some "cisco-npe-img"⟩]),
   true, .ok "!!!!!", true, .ok "  *~10.10.0.1  .INIT."⟩

/-- A second all-success device (PE image, raw CDP output, not synced). -/
def goodB2 : DeviceBehavior :=
  ⟨true, true, .ok "hostname R2", true,
   .ok (.raw "% CDP is not enabled"),
   .ok (.structured [⟨Option.some "R2", Option.some ["C2960"],
                      Option.some "12.2", Option.some "ipbase"⟩]),
   true, .ok "U.....U", true, .ok "   ~10.10.0.1  .INIT."⟩

/-- A device whose `ConnectHandler` call raises. -/
def badConnect : DeviceBehavior :=
  ⟨false, true, .ok "hostname R1", true, .ok (.structured []),
   .ok (.structured []), true, .ok "!!!!!", true, .ok ""⟩

/-- A device that connects but whose `enable()` call raises. -/
def badEnable : DeviceBehavior :=
  ⟨true, false, .ok "hostname R1", true, .ok (.structured []),
   .ok (.structured []), true, .ok "!!!!!", true, .ok ""⟩

/-- A device on which `sh cdp neighbors detail` raises after a successful
connect and backup. -/
def cdpFail : DeviceBehavior :=
  ⟨true, true, .ok "hostname R1", true, .error .commandError,
   .ok (.structured []), true, .ok "!!!!!", true, .ok ""⟩

/-- A device on which writing the backup file raises IOError. -/
def writeFailB : DeviceBehavior :=
  ⟨true, true, .ok "hostname R1", false,
   .ok (.structured [(), ()]),
   .ok (.structured [⟨Option.some "R1", Option.some ["ISR4321"],
                      Option.some "15.1", Option.some "cisco-npe-img"⟩]),
   true, .ok "!!!!!", true, .ok "  *~10.10.0.1  .INIT."⟩

/-- A device whose `sh ver` output is non-empty raw text (textfsm found no
matching template). -/
def rawVerB : DeviceBehavior :=
  ⟨true, true, .ok "hostname R1", true,
   .ok (.structured [(), ()]),
   .ok (.raw "Cisco IOS Software, C2900 Software"),
   true, .ok "!!!!!", true, .ok "  *~10.10.0.1  .INIT."⟩

/-- A two-device all-success fleet. -/
def demoFleet : List (Device × DeviceBehavior) :=
  [(demoDevice, goodB), (demoDevice2, goodB2)]

/-- A five-device fleet in which exactly the second device fails to
connect. -/
def demoFleet5 : List (Device × DeviceBehavior) :=
  [(demoDevice, goodB), (demoDevice2, badConnect), (demoDevice, goodB),
   (demoDevice, goodB), (demoDevice, goodB)]

/-- The report lines `main` produces on `demoFleet`. -/
def demoResults : List String :=
  ["R1|ISR4321|15.1|NPE|CDP is ON, 2 peers|Clock in Sync",
   "R2|C2960|12.2|PE|CDP is OFF, 0 peers|Not Sync"]

/-- The final world state of the all-success demo run. -/
def demoFinalW : World := (main_run demoFleet demoTs World.empty).2

theorem startsWithL_iff (p : List Char) :
    ∀ l, startsWithL p l = true ↔ ∃ suf, l = p ++ suf := by
  induction p with
  | nil => intro l; simp [startsWithL]
  | cons a ps ih =>
    intro l
    cases l with
    | nil => simp [startsWithL]
    | cons c cs =>
      simp only [startsWithL, Bool.and_eq_true, beq_iff_eq, ih cs,
        List.cons_append]
      constructor
      · rintro ⟨rfl, suf, rfl⟩
        exact ⟨suf, rfl⟩
      · rintro ⟨suf, hsuf⟩
        rcases List.cons_eq_cons.mp hsuf with ⟨rfl, rfl⟩
        exact ⟨rfl, suf, rfl⟩

theorem hasSub_iff (p : List Char) :
    ∀ l, hasSub p l = true ↔ ∃ pre suf, l = pre ++ p ++ suf := by
  intro l
  induction l with
  | nil =>
    simp only [hasSub, startsWithL_iff]
    constructor
    · rintro ⟨suf, hsuf⟩
      exact ⟨[], suf, by simpa using hsuf⟩
    · rintro ⟨pre, suf, hps⟩
      have h0 : pre ++ (p ++ suf) = [] := by
        rw [← List.append_assoc]; exact hps.symm
      rcases List.append_eq_nil.mp h0 with ⟨h1, h2⟩
      exact ⟨suf, h2.symm⟩
  | cons c cs ih =>
    simp only [hasSub, Bool.or_eq_true, startsWithL_iff, ih]
    constructor
    · rintro (⟨suf, hsuf⟩ | ⟨pre, suf, hps⟩)
      · exact ⟨[], suf, by simpa using hsuf⟩
      · exact ⟨c :: pre, suf, by simp [hps]⟩
    · rintro ⟨pre, suf, hps⟩
      cases pre with
      | nil => exact Or.inl ⟨suf, by simpa using hps⟩
      | cons x xs =>
        rcases List.cons_eq_cons.mp (by simpa using hps) with ⟨rfl, h2⟩
        exact Or.inr ⟨xs, suf, by simpa using h2⟩

theorem hasSub_map_iff (f : Char → Char) (pat l : List Char) :
    hasSub pat (l.map f) = true ↔
      ∃ pre tok suf, l = pre ++ tok ++ suf ∧ tok.map f = pat := by
  rw [hasSub_iff]
  constructor
  · rintro ⟨A, B, hAB⟩
    rw [List.append_assoc] at hAB
    obtain ⟨l1, l2, rfl, h1, h2⟩ := List.map_eq_append_iff.mp hAB
    obtain ⟨l3, l4, rfl, h3, h4⟩ := List.map_eq_append_iff.mp h2
    exact ⟨l1, l3, l4, by simp [List.append_assoc], h3⟩
  · rintro ⟨pre, tok, suf, rfl, rfl⟩
    exact ⟨pre.map f, suf.map f, by simp⟩

theorem strAppend_assoc (a b c : String) : a ++ b ++ c = a ++ (b ++ c) := by
  cases a with
  | mk da =>
    cases b with
    | mk db =>
      cases c with
      | mk dc => exact congrArg String.mk (List.append_assoc da db dc)

/-- C6: for a structured neighbor list of length n (including n = 0) the
CDP extractor returns "CDP is ON, n peers"; for any output that is not a
structured list it returns "CDP is OFF, 0 peers"; the two summaries are
distinguishable for an empty neighbor list. -/
theorem cdp_summary_spec :
    (∀ recs : List Unit, cdp_summary (CmdOutput.structured recs)
        = "CDP is ON, " ++ toString recs.length ++ " peers") ∧
    (∀ s, cdp_summary (CmdOutput.raw s : CmdOutput Unit)
        = "CDP is OFF, 0 peers") ∧
    cdp_summary (CmdOutput.noneV : CmdOutput Unit) = "CDP is OFF, 0 peers" ∧
    cdp_summary (CmdOutput.structured ([] : List Unit)) ≠
      cdp_summary (CmdOutput.raw "" : CmdOutput Unit) := by
  refine ⟨fun recs => rfl, fun s => rfl, rfl, by decide⟩

/-- C7: the image classification is "NPE" exactly when the running-image
text contains a contiguous token whose charwise uppercase is "NPE" (the
token in any letter case, anywhere in the string), and "PE" otherwise. -/
theorem npe_classification_spec (img : String) :
    (npe_classification img = "NPE" ↔
      ∃ pre tok suf, img.data = pre ++ tok ++ suf ∧
        tok.map upChar = ['N', 'P', 'E']) ∧
    (npe_classification img = "PE" ↔
      ¬ ∃ pre tok suf, img.data = pre ++ tok ++ suf ∧
        tok.map upChar = ['N', 'P', 'E']) := by
  have key : strContains (upStr img) "NPE" = true ↔
      ∃ pre tok suf, img.data = pre ++ tok ++ suf ∧
        tok.map upChar = ['N', 'P', 'E'] := by
    have hd : ("NPE" : String).data = ['N', 'P', 'E'] := rfl
    show hasSub ("NPE" : String).data (img.data.map upChar) = true ↔ _
    rw [hd, hasSub_map_iff]
  constructor
  · rw [← key]
    unfold npe_classification
    cases hb : strContains (upStr img) "NPE" <;> simp [hb]
  · rw [← key]
    unfold npe_classification
    cases hb : strContains (upStr img) "NPE" <;> simp [hb]

/-- C8: the NTP-sync extractor answers "Clock in Sync" exactly when the
command output contains the literal marker "*~" immediately followed by
the configured server address, and "Not Sync" otherwise. -/
theorem ntp_sync_summary_spec (server output : String) :
    (ntp_sync_summary server output = "Clock in Sync" ↔
      ∃ pre suf, output.data = pre ++ (['*', '~'] ++ server.data) ++ suf) ∧
    (ntp_sync_summary server output = "Not Sync" ↔
      ¬ ∃ pre suf, output.data = pre ++ (['*', '~'] ++ server.data) ++ suf) := by
  have key := hasSub_iff (['*', '~'] ++ server.data) output.data
  constructor
  · rw [← key]
    unfold ntp_sync_summary
    cases hb : hasSub (['*', '~'] ++ server.data) output.data <;> simp [hb]
  · rw [← key]
    unfold ntp_sync_summary
    cases hb : hasSub (['*', '~'] ++ server.data) output.data <;> simp [hb]

theorem writeFile_overwrite (w : World) (p c1 c2 : String) :
    (w.writeFile p c1).writeFile p c2 = w.writeFile p c2 := by
  unfold World.writeFile
  refine congrArg (fun f => World.mk f w.dirs w.disconnects) ?_
  funext q
  by_cases hq : q = p <;> simp [hq]

/-- C9: the backup file path is exactly backups/H/H-T.txt, the
per-hostname directory exists afterwards (created when absent), and a
second write to the same path deterministically overwrites the first. -/
theorem get_backup_file_path_spec (hn t : String) (w : World)
    (c1 c2 : String) :
    (get_backup_file_path hn t w).1 =
      BACKUP_DIR_PATH ++ "/" ++ hn ++ "/" ++ hn ++ "-" ++ t ++ ".txt" ∧
    (get_backup_file_path hn t w).2.dirs (BACKUP_DIR_PATH ++ "/" ++ hn)
      = true ∧
    (((get_backup_file_path hn t w).2.writeFile
        (get_backup_file_path hn t w).1 c1).writeFile
        (get_backup_file_path hn t w).1 c2 =
      (get_backup_file_path hn t w).2.writeFile
        (get_backup_file_path hn t w).1 c2) ∧
    ((get_backup_file_path hn t w).2.writeFile
        (get_backup_file_path hn t w).1 c2).files
        (get_backup_file_path hn t w).1 = Option.some c2 := by
  refine ⟨?_, ?_, writeFile_overwrite _ _ _ _, ?_⟩
  · simp [get_backup_file_path, pathJoin, strAppend_assoc]
  · unfold get_backup_file_path pathJoin
    dsimp only
    by_cases hd : w.dirs (BACKUP_DIR_PATH ++ "/" ++ hn) = true <;>
      simp [hd, World.mkdirs]
  · simp [World.writeFile]

/-- C10: every falsy sh-ver output (None, empty raw text, empty record
list) yields four empty fields — the empty structured list is therefore
indistinguishable from unparseable output here, unlike the CDP extractor —
and on a non-empty record list all four fields come from the first record
only. -/
theorem check_version_extract_spec :
    check_version_extract CmdOutput.noneV = .ok ("", "", "", "") ∧
    check_version_extract (CmdOutput.raw "") = .ok ("", "", "", "") ∧
    check_version_extract (CmdOutput.structured []) = .ok ("", "", "", "") ∧
    cdp_summary (CmdOutput.structured ([] : List Unit)) ≠
      cdp_summary (CmdOutput.raw "" : CmdOutput Unit) ∧
    (∀ r rest rest',
      check_version_extract (CmdOutput.structured (r :: rest)) =
        check_version_extract (CmdOutput.structured (r :: rest'))) ∧
    (∀ hn hw tl v ri rest,
      check_version_extract (CmdOutput.structured
          (⟨hn, Option.some (hw :: tl), v, ri⟩ :: rest)) =
        .ok (hn.getD "", hw, upStr (v.getD ""),
             npe_classification (ri.getD ""))) ∧
    (∀ hn v ri rest,
      check_version_extract (CmdOutput.structured
          (⟨hn, Option.none, v, ri⟩ :: rest)) =
        .ok (hn.getD "", "", upStr (v.getD ""),
             npe_classification (ri.getD ""))) := by
  refine ⟨rfl, rfl, rfl, by decide, fun r rest rest' => rfl,
    fun hn hw tl v ri rest => rfl, fun hn v ri rest => rfl⟩

theorem fleet_loop_length (ts : String) :
    ∀ (ds : List (Device × DeviceBehavior)) (w : World) (rs : List String)
      (w' : World),
      fleet_loop ts ds w = (.ok rs, w') → rs.length = ds.length := by
  intro ds
  induction ds with
  | nil =>
    intro w rs w' h
    simp only [fleet_loop, Prod.mk.injEq, Except.ok.injEq] at h
    simp [← h.1]
  | cons p rest ih =>
    obtain ⟨d, b⟩ := p
    intro w rs w' h
    simp only [fleet_loop] at h
    rcases hp : process_target d b ts w with ⟨e1, w1⟩
    rw [hp] at h
    cases e1 with
    | error e => simp at h
    | ok r =>
      dsimp only at h
      rcases hf : fleet_loop ts rest w1 with ⟨e2, w2⟩
      rw [hf] at h
      cases e2 with
      | error e => simp at h
      | ok rs2 =>
        dsimp only at h
        simp only [Prod.mk.injEq, Except.ok.injEq] at h
        rcases h with ⟨h1, _⟩
        subst h1
        simp [ih w1 rs2 w2 hf]

theorem fleet_loop_pos (ts : String) :
    ∀ (ds1 : List (Device × DeviceBehavior)) (d : Device)
      (b : DeviceBehavior) (ds2 : List (Device × DeviceBehavior)) (w : World)
      (rs : List String) (w' : World),
      fleet_loop ts (ds1 ++ (d, b) :: ds2) w = (.ok rs, w') →
      ∃ w1 r, (process_target d b ts w1).1 = .ok r ∧
        rs[ds1.length]? = Option.some r := by
  intro ds1
  induction ds1 with
  | nil =>
    intro d b ds2 w rs w' h
    rw [List.nil_append] at h
    simp only [fleet_loop] at h
    rcases hp : process_target d b ts w with ⟨e1, w1⟩
    rw [hp] at h
    cases e1 with
    | error e => simp at h
    | ok r =>
      dsimp only at h
      rcases hf : fleet_loop ts ds2 w1 with ⟨e2, w2⟩
      rw [hf] at h
      cases e2 with
      | error e => simp at h
      | ok rs2 =>
        dsimp only at h
        simp only [Prod.mk.injEq, Except.ok.injEq] at h
        rcases h with ⟨h1, _⟩
        subst h1
        exact ⟨w, r, by simp [hp], by simp⟩
  | cons p ds1' ih =>
    obtain ⟨d0, b0⟩ := p
    intro d b ds2 w rs w' h
    rw [List.cons_append] at h
    simp only [fleet_loop] at h
    rcases hp : process_target d0 b0 ts w with ⟨e1, w1⟩
    rw [hp] at h
    cases e1 with
    | error e => simp at h
    | ok r =>
      dsimp only at h
      rcases hf : fleet_loop ts (ds1' ++ (d, b) :: ds2) w1 with ⟨e2, w2⟩
      rw [hf] at h
      cases e2 with
      | error e => simp at h
      | ok rs2 =>
        dsimp only at h
        simp only [Prod.mk.injEq, Except.ok.injEq] at h
        rcases h with ⟨h1, _⟩
        subst h1
        rcases ih d b ds2 w1 rs2 w2 hf with ⟨wi, ri, hri, hget⟩
        exact ⟨wi, ri, hri, by simpa using hget⟩

theorem get_backup_file_path_disconnects (hn t : String) (w : World) :
    (get_backup_file_path hn t w).2.disconnects = w.disconnects := by
  unfold get_backup_file_path
  dsimp only
  split <;> rfl

theorem create_backup_try_disconnects (b : DeviceBehavior) (p : String)
    (w : World) :
    (create_backup_try b p w).2.disconnects = w.disconnects := by
  unfold create_backup_try
  split
  · rfl
  · split
    · rfl
    · split <;> rfl

theorem create_backup_disconnects (b : DeviceBehavior) (p : String)
    (w : World) :
    (create_backup b p w).2.disconnects = w.disconnects := by
  have ht := create_backup_try_disconnects b p w
  unfold create_backup
  rcases h : create_backup_try b p w with ⟨e, w1⟩
  rw [h] at ht
  cases e <;> simpa using ht

/-- C1 (amended): when the fleet loop completes with no uncaught exception,
it yields exactly one report line per inventory record and the line at
each input position is the one its record's pipeline produced — an
exception from any single device instead aborts the whole run with no
result list at all (see the counterexample). -/
theorem main_run_ok_spec (ds : List (Device × DeviceBehavior)) (ts : String)
    (w : World) (rs : List String) (w' : World)
    (h : main_run ds ts w = (.ok rs, w')) :
    rs.length = ds.length ∧
    ∀ ds1 d b ds2, ds = ds1 ++ (d, b) :: ds2 →
      ∃ w1 r, (process_target d b ts w1).1 = .ok r ∧
        rs[ds1.length]? = Option.some r := by
  unfold main_run at h
  refine ⟨fleet_loop_length ts ds w rs w' h, ?_⟩
  rintro ds1 d b ds2 rfl
  exact fleet_loop_pos ts ds1 d b ds2 w rs w' h

/-- C1 witness: the all-success two-device demo run returns one line per
record. -/
theorem main_run_ok_spec_witness : demoResults.length = demoFleet.length :=
  (main_run_ok_spec demoFleet demoTs World.empty demoResults demoFinalW
    rfl).1

/-- C1 counterexample: with a single device whose connect raises, the run
does not produce a result list at all — `len(Results) == len(Device
Records)` fails because the loop dies with the exception. -/
theorem per_device_failure_drops_all_results :
    ¬ ∃ rs w', main_run [(demoDevice, badConnect)] demoTs World.empty =
      (.ok rs, w') := by
  rintro ⟨rs, w', hcontra⟩
  have he : (main_run [(demoDevice, badConnect)] demoTs World.empty).1 =
      .error .connectionError := rfl
  rw [hcontra] at he
  exact Except.noConfusion he

/-- C2 (amended): a device whose connect raises does not get an
all-unknown Result — `process_target` propagates the ConnectionError with
the world untouched, and the fleet loop containing that device aborts with
the same exception, so devices later in the inventory never run; a
privilege-escalation failure (which the code only attempts inside
`create_backup`'s broken handler) likewise aborts the pipeline, with a
NameError. -/
theorem connect_failure_aborts (d : Device) (b bPriv : DeviceBehavior)
    (ts : String) (w : World) (rest : List (Device × DeviceBehavior))
    (hc : b.connectOk = false) (hp1 : bPriv.connectOk = true)
    (hp2 : bPriv.enableOk = false) :
    (process_target d b ts w).1 = .error .connectionError ∧
    (process_target d b ts w).2 = w ∧
    (fleet_loop ts ((d, b) :: rest) w).1 = .error .connectionError ∧
    (process_target d bPriv ts w).1 = .error .nameError := by
  have h1 : connect_to_device b = .error .connectionError := by
    simp [connect_to_device, hc]
  have hpt : process_target d b ts w = (.error .connectionError, w) := by
    unfold process_target
    rw [h1]
  refine ⟨by rw [hpt], by rw [hpt], ?_, ?_⟩
  · simp only [fleet_loop]
    rw [hpt]
  · have h2 : connect_to_device bPriv = .ok () := by
      simp [connect_to_device, hp1]
    unfold process_target
    rw [h2]
    dsimp only
    rcases hgp : get_backup_file_path d.hostname ts w with ⟨p1, w1⟩
    dsimp only
    have h3 : create_backup bPriv p1 w1 = (.error .nameError, w1) := by
      unfold create_backup create_backup_try
      rw [hp2]
      rfl
    rw [h3]

/-- C2 witness: concrete connect-failure and enable-failure devices. -/
theorem connect_failure_aborts_witness :
    (process_target demoDevice badConnect demoTs World.empty).1 =
      .error .connectionError ∧
    (process_target demoDevice badConnect demoTs World.empty).2 =
      World.empty ∧
    (fleet_loop demoTs [(demoDevice, badConnect)] World.empty).1 =
      .error .connectionError ∧
    (process_target demoDevice badEnable demoTs World.empty).1 =
      .error .nameError :=
  connect_failure_aborts demoDevice badConnect badEnable demoTs World.empty
    [] rfl rfl rfl

/-- C2 counterexample: in a five-device fleet whose second device fails to
connect, the failing device yields no Result (the claim promised an
all-unknown Result) and the other four pipelines are not unaffected — the
whole run aborts, so there are not 5 Results. -/
theorem connect_failure_not_isolated :
    (process_target demoDevice2 badConnect demoTs World.empty).1 =
      .error .connectionError ∧
    ¬ ∃ rs w', main_run demoFleet5 demoTs World.empty = (.ok rs, w') := by
  refine ⟨rfl, ?_⟩
  rintro ⟨rs, w', hcontra⟩
  have he : (main_run demoFleet5 demoTs World.empty).1 =
      .error .connectionError := rfl
  rw [hcontra] at he
  exact Except.noConfusion he

/-- C3 (amended): `disconnect_from_device` runs exactly once when every
step of the pipeline succeeds, but on any exception path — including every
failure after a successful connect — the pipeline returns with the session
still connected (no disconnect call). -/
theorem process_target_disconnect_spec (d : Device) (b : DeviceBehavior)
    (ts : String) (w : World) :
    (∀ r, (process_target d b ts w).1 = .ok r →
      (process_target d b ts w).2.disconnects = w.disconnects + 1) ∧
    (∀ e, (process_target d b ts w).1 = .error e →
      (process_target d b ts w).2.disconnects = w.disconnects) := by
  have hg := get_backup_file_path_disconnects d.hostname ts w
  rcases hgp : get_backup_file_path d.hostname ts w with ⟨p1, w1⟩
  rw [hgp] at hg
  have hcb := create_backup_disconnects b p1 w1
  rcases hcbp : create_backup b p1 w1 with ⟨e2, w2⟩
  rw [hcbp] at hcb
  unfold process_target
  cases hc : connect_to_device b with
  | error e => exact ⟨fun r hr => by simp at hr, fun e' he => rfl⟩
  | ok u =>
    cases u
    dsimp only
    rw [hgp]
    dsimp only
    rw [hcbp]
    cases e2 with
    | error e =>
      exact ⟨fun r hr => by simp at hr,
             fun e' he => by rw [hcb, hg]⟩
    | ok flag =>
      dsimp only
      cases check_cdp_neighbours_count b with
      | error e =>
        exact ⟨fun r hr => by simp at hr, fun e' he => by rw [hcb, hg]⟩
      | ok cdp_result =>
        dsimp only
        cases check_version b with
        | error e =>
          exact ⟨fun r hr => by simp at hr, fun e' he => by rw [hcb, hg]⟩
        | ok quad =>
          rcases quad with ⟨hostname, device_type, image, is_NPE⟩
          dsimp only
          cases set_timezone b with
          | error e =>
            exact ⟨fun r hr => by simp at hr, fun e' he => by rw [hcb, hg]⟩
          | ok u2 =>
            cases u2
            dsimp only
            cases ping_ntp b with
            | error e =>
              exact ⟨fun r hr => by simp at hr,
                     fun e' he => by rw [hcb, hg]⟩
            | ok avail =>
              dsimp only
              cases check_ntp b NTP_SERVER with
              | error e =>
                exact ⟨fun r hr => by simp at hr,
                       fun e' he => by rw [hcb, hg]⟩
              | ok ntp_result =>
                dsimp only
                exact ⟨fun r hr => by
                    show (disconnect_from_device w2).disconnects =
                      w.disconnects + 1
                    unfold disconnect_from_device World.bump
                    rw [hcb, hg],
                  fun e' he => by simp at he⟩

/-- C3 witness: on the all-success device the disconnect runs once; on the
device whose CDP command raises it never runs. -/
theorem process_target_disconnect_spec_witness :
    (process_target demoDevice goodB demoTs World.empty).2.disconnects =
      World.empty.disconnects + 1 ∧
    (process_target demoDevice cdpFail demoTs World.empty).2.disconnects =
      World.empty.disconnects :=
  ⟨(process_target_disconnect_spec demoDevice goodB demoTs World.empty).1
      "R1|ISR4321|15.1|NPE|CDP is ON, 2 peers|Clock in Sync" rfl,
   (process_target_disconnect_spec demoDevice cdpFail demoTs
      World.empty).2 PyErr.commandError rfl⟩

/-- C3 counterexample: a pipeline whose connect succeeded but whose CDP
command raises exits with the session still connected — zero disconnect
calls, not exactly one. -/
theorem later_failure_skips_disconnect :
    connect_to_device cdpFail = .ok () ∧
    (process_target demoDevice cdpFail demoTs World.empty).1 =
      .error .commandError ∧
    (process_target demoDevice cdpFail demoTs World.empty).2.disconnects
      = 0 :=
  ⟨rfl, rfl, rfl⟩

/-- C4: when the backup step fails (here: the file write raises IOError),
`create_backup` does not return False — its `except Error:` handler names
an undefined `Error`, so a NameError propagates, the pipeline dies before
any inspection step, and no report line (which anyway carries no backup
flag) is produced; the session is also never disconnected. -/
theorem backup_failure_raises_nameError :
    (create_backup writeFailB
        (get_backup_file_path "R1" demoTs World.empty).1 World.empty).1 =
      .error .nameError ∧
    (process_target demoDevice writeFailB demoTs World.empty).1 =
      .error .nameError ∧
    (process_target demoDevice writeFailB demoTs World.empty).2.disconnects
      = 0 :=
  ⟨rfl, rfl, rfl⟩

/-- C5: a non-empty raw `sh ver` output (textfsm matched no template) is
not mapped to four empty fields — `output[0].get` on a string raises
AttributeError, which propagates out of `check_version` and kills that
device's pipeline before disconnect. -/
theorem raw_version_output_raises :
    check_version_extract
        (CmdOutput.raw "Cisco IOS Software, C2900 Software") =
      .error .attributeError ∧
    check_version_extract
        (CmdOutput.raw "Cisco IOS Software, C2900 Software") ≠
      .ok ("", "", "", "") ∧
    check_version rawVerB = .error .attributeError ∧
    (process_target demoDevice rawVerB demoTs World.empty).1 =
      .error .attributeError ∧
    (process_target demoDevice rawVerB demoTs World.empty).2.disconnects
      = 0 :=
  ⟨rfl, fun hco => Except.noConfusion hco, rfl, rfl, rfl⟩
